import Mathlib

/-!
Verification development for the InterVA5 cause-of-death engine
(`src/interva/interva5.py`, class `InterVA5`, method `run`).

The embedding works over exact rationals (ℚ).  Python/NumPy `nan` (a missing
value) is modelled as `none : Option ℚ`; raw spreadsheet cells are `Option
String` (`none` = an empty/NaN cell).  Fallible Python code (statements that
raise `IOError`, `TypeError`, `ValueError`) is modelled with `Except String`.

Two NumPy facts drive the shape of the embedding and are recorded here once:
`prob = Sys_Prior[17:D]` (line 341) is a *view*, so the element and slice
assignments `prob[...] = ...` inside the record loop write through into
`Sys_Prior`; the state passed from one record to the next therefore includes
the (mutated) prior, which the embedding threads explicitly.  Second,
`new_input[1:input_len][new_input[1:input_len] == 1]` (line 343) is boolean
mask *value* selection: it yields the list of flag values (all equal to `1`),
not the list of flagged indices, and the embedding reproduces exactly that.

Rational division by zero is `0` in Lean while NumPy would produce `inf`/`nan`
with a warning; no theorem below depends on a division whose divisor is zero.
-/

set_option maxRecDepth 100000

attribute [local semireducible] Rat.add Rat.mul Rat.sub Rat.inv Rat.ofScientific

/-- Binary maximum on ℚ (`numpy.maximum` step used by `amax`); agrees with
`max`, stated as `qmax_eq_max` below. -/
def qmax (a b : ℚ) : ℚ := if a < b then b else a

/-- Floor of a rational, via flooring integer division. -/
def qfloor (q : ℚ) : ℤ := Int.fdiv q.num q.den

/-- Python `str.lower`, character by character (the ASCII setting codes and
column names are all this embedding lower-cases). -/
def pyLower (s : String) : String := String.mk (s.data.map Char.toLower)

/-- Symbolic grade substitution of `probbase` columns 17.. (lines 207-222).
Cells that match none of the 15 grades nor the empty string are left as
strings by the source and make the later `to_numeric` raise: `none` here. -/
def gradeToNum (s : String) : Option ℚ :=
  if s = "I" then some 1
  else if s = "A+" then some (4/5)
  else if s = "A" then some (1/2)
  else if s = "A-" then some (1/5)
  else if s = "B+" then some (1/10)
  else if s = "B" then some (1/20)
  else if s = "B-" then some (1/50)
  else if s = "C+" then some (1/100)
  else if s = "C" then some (1/200)
  else if s = "C-" then some (1/500)
  else if s = "D+" then some (1/1000)
  else if s = "D" then some (1/2000)
  else if s = "D-" then some (1/10000)
  else if s = "E" then some (1/100000)
  else if s = "N" then some 0
  else if s = "" then some 0
  else none

/-- HIV prevalence overwrite of the prior (lines 231-236): three sequential
`if` statements, each setting index 22. -/
def applyHiv (hiv : String) (sp : List ℚ) : List ℚ :=
  let sp := if hiv = "h" then sp.set 22 (1/20) else sp
  let sp := if hiv = "l" then sp.set 22 (1/200) else sp
  if hiv = "v" then sp.set 22 (1/100000) else sp

/-- Malaria prevalence overwrite of the prior (lines 237-245): three
sequential `if` statements, each setting indices 24 and 44. -/
def applyMalaria (malaria : String) (sp : List ℚ) : List ℚ :=
  let sp := if malaria = "h" then (sp.set 24 (1/20)).set 44 (1/20) else sp
  let sp := if malaria = "l" then (sp.set 24 (1/200)).set 44 (1/100000) else sp
  if malaria = "v" then (sp.set 24 (1/100000)).set 44 (1/100000) else sp

/-- Build `Sys_Prior` from `probbase` row 0 (lines 223-245): metadata columns
0..16 are zeroed, the remaining cells have already been grade-substituted,
`to_numeric` raises on any unconverted cell, the two settings are
lower-cased and validated, then the prevalence overwrites are applied. -/
def buildSysPrior (row0 : List String) (hiv malaria : String) :
    Except String (List ℚ) :=
  let conv : List (Option ℚ) :=
    (List.range row0.length).map (fun j =>
      if j < 17 then some 0 else gradeToNum (row0.getD j ""))
  match conv.mapM (fun a => a) with
  | none => Except.error "ValueError: Unable to parse string"
  | some vals =>
    let hiv := pyLower hiv
    let malaria := pyLower malaria
    if ¬ (hiv = "h" ∨ hiv = "l" ∨ hiv = "v") ∨
       ¬ (malaria = "h" ∨ malaria = "l" ∨ malaria = "v") then
      Except.error "error: the HIV and Malaria indicator should be one of the three: h, l, v"
    else
      Except.ok (applyMalaria malaria (applyHiv hiv vals))

/-- Marker canonicalization of one raw cell (lines 281-290): `n`/`N` and `0`
map to 0, `y`/`Y` and `1` map to 1, everything else (including a missing
cell) becomes missing. -/
def canonCell (s : Option String) : Option ℚ :=
  match s with
  | none => none
  | some s =>
    if s = "n" ∨ s = "N" ∨ s = "0" then some 0
    else if s = "y" ∨ s = "Y" ∨ s = "1" then some 1
    else none

/-- Canonicalize a raw record and force index 0 to 0 (line 293). -/
def canonicalize (raw : List (Option String)) : List (Option ℚ) :=
  (raw.map canonCell).set 0 (some 0)

/-- `numpy.nansum`: sum treating missing values as 0. -/
def nansum (l : List (Option ℚ)) : ℚ :=
  (l.map (fun a => a.getD 0)).sum

/-- The half-open slice `l[a:b]` of a Python sequence. -/
def pySlice (l : List (Option ℚ)) (a b : ℕ) : List (Option ℚ) :=
  (l.drop a).take (b - a)

/-- Exclusion checks (lines 294-308), in source order: age indicators `[5:12]`,
sex indicators `[3:5]`, symptom indicators `[20:328]`; a range whose
`nansum` is < 1 excludes the record with the corresponding reason. -/
def excludedReason (v : List (Option ℚ)) : Option String :=
  if nansum (pySlice v 5 12) < 1 then some " Error in age indicator: Not Specified"
  else if nansum (pySlice v 3 5) < 1 then some " Error in sex indicator: Not Specified"
  else if nansum (pySlice v 20 328) < 1 then some " Error in indicators: No symptoms specified"
  else none

/-- The expected-value substitution vector (lines 322-324), from `probbase`
column 5: `N` gives 0, `Y` gives 1, anything else stays missing. -/
def substVector (pb : List (List String)) : List (Option ℚ) :=
  pb.map (fun r =>
    let c := r.getD 5 ""
    if c = "N" then some 0 else if c = "Y" then some 1 else none)

/-- Informativeness flags `new_input` (lines 326-330): index 0 is 0, index
`y ≥ 1` is 1 exactly when the checked value is non-missing and equals the
substitution vector's value there. -/
def newInput (inp subst : List (Option ℚ)) : List ℕ :=
  (List.range inp.length).map (fun y =>
    if y = 0 then 0
    else
      match inp.getD y none, subst.getD y none with
      | some a, some b => if a = b then 1 else 0
      | _, _ => 0)

/-- Post-substitution record (lines 332-334): zeros become 1, index 0 is
re-zeroed, missing values become 0 — in that order. -/
def postSubst (inp : List (Option ℚ)) : List ℚ :=
  (((inp.map (fun a =>
      match a with
      | some x => if x = 0 then some (1 : ℚ) else some x
      | none => none)).set 0 (some 0)).map (fun a => a.getD 0))

/-- Reproductive-age flag (lines 335-340), computed on the post-substitution
record: cell 4 equals 1, and cell 16 equals 1 or some cell of `[17:19]` is
non-zero (`.any() == 1`). -/
def reproductiveAge (v : List ℚ) : Bool :=
  (v.getD 4 0 == 1) &&
    ((v.getD 16 0 == 1) || ((v.drop 17).take 2).any (fun x => x != 0))

/-- Sum of the half-open index range `[a:b]` of a rational list. -/
def gsum (l : List ℚ) (a b : ℕ) : ℚ :=
  ((l.drop a).take (b - a)).sum

/-- One in-place group renormalization `prob[a:b] = prob[a:b] / sum(prob[a:b])`
guarded by a strictly positive sum (lines 348-359). -/
def normGroup (l : List ℚ) (a b : ℕ) : List ℚ :=
  if 0 < gsum l a b then
    l.take a ++ ((l.drop a).take (b - a)).map (fun x => x / gsum l a b) ++ l.drop b
  else l

/-- The three per-group renormalizations of one update iteration, in source
order: group A `[0:3]`, group B `[3:64]`, group C `[64:70]`. -/
def normalizeGroups (l : List ℚ) : List ℚ :=
  normGroup (normGroup (normGroup l 0 3) 3 64) 64 70

/-- One iteration of the multiplicative update (lines 345-359): element-wise
product with a symptom row (restricted to the cause columns) followed by the
three group renormalizations. -/
def updateStep (row prob : List ℚ) : List ℚ :=
  normalizeGroups (List.zipWith (fun r p => p * r) row prob)

/-- Cause-column slice of a `probbase` row passed through `to_numeric`
(line 346-347); raises on a cell the grade substitution did not convert. -/
def rowNumeric (pb : List (List String)) (r : ℕ) : Except String (List ℚ) :=
  match ((pb.getD r []).drop 17).mapM gradeToNum with
  | none => Except.error "ValueError: Unable to parse string"
  | some v => Except.ok v

/-- The inference loop (lines 341-359).  `temp` is the boolean-mask selection
`new_input[1:][new_input[1:] == 1]` — the list of flag *values* (all 1), not
of flagged indices — and each element `temp_sub` selects `probbase` row
`temp_sub + 1`, i.e. always row 2.  Returns the updated `Sys_Prior` (written
through the `prob` view) together with the final cause vector. -/
def inferProbE (pb : List (List String)) (flags : List ℕ) (sysPrior : List ℚ) :
    Except String (List ℚ × List ℚ) :=
  let temp := (flags.drop 1).filter (fun t => t == 1)
  match temp.foldlM
      (fun p tempSub =>
        match rowNumeric pb (tempSub + 1) with
        | Except.error e => Except.error e
        | Except.ok row => Except.ok (updateStep row p))
      (sysPrior.drop 17) with
  | Except.error e => Except.error e
  | Except.ok prob => Except.ok (sysPrior.take 17 ++ prob, prob)

/-- Largest element of a rational list (`numpy.amax` / Python `max`);
0 for the empty list, which the source never feeds it. -/
def amaxQ (l : List ℚ) : ℚ :=
  l.foldl qmax (l.headD 0)

/-- Index of the first occurrence of the maximum (`numpy.argmax`). -/
def argmaxQ (l : List ℚ) : ℕ :=
  (List.range l.length).foldl (fun b i => if l.getD b 0 < l.getD i 0 then i else b) 0

/-- Python `round`: round half to even, as applied to our exact rationals. -/
def pyRound (q : ℚ) : ℤ :=
  let f := qfloor q
  let r := q - (f : ℚ)
  if r < 1/2 then f
  else if 1/2 < r then f + 1
  else if f % 2 = 0 then f else f + 1

/-- Pregnancy-status classification (lines 335-382): five unconditional
sequential assignments evaluated in source order, later writes overwriting
earlier ones.  The likelihood slot holds `none` for the string `" "`. -/
def pregnancy (probA : List ℚ) (repro : Bool) : String × Option ℤ :=
  let s := probA.sum
  let st0 : String × Option ℤ := (" ", none)
  let st1 := if s = 0 ∨ repro = false then ("n/a", (none : Option ℤ)) else st0
  let st2 := if amaxQ probA < 1/10 ∧ repro = true then ("indeterminate", (none : Option ℤ)) else st1
  let m := argmaxQ probA
  let st3 := if m = 0 ∧ 1/10 ≤ probA.getD 0 0 ∧ repro = true then
      ("Not pregnant or recently delivered", some (pyRound (probA.getD 1 0 / s * 100)))
    else st2
  let st4 := if m = 1 ∧ 1/10 ≤ probA.getD 1 0 ∧ repro = true then
      ("Pregnancy ended within 6 weeks of death", some (pyRound (probA.getD 1 0 / s * 100)))
    else st3
  if m = 2 ∧ 1/10 ≤ probA.getD 2 0 ∧ repro = true then
    ("Pregnant at death", some (pyRound (probA.getD 2 0 / s * 100)))
  else st4

/-- A dynamically-typed Python slot: `None`, a string, or an integer. -/
inductive PyVal : Type where
  | vnone : PyVal
  | vstr : String → PyVal
  | vint : ℤ → PyVal
deriving DecidableEq, Repr

/-- One element of the `top3` list (line 388 and the appends): the three
initial empty-list placeholders from `[[] for _ in range(3)]`, or an
appended likelihood value. -/
inductive TopEntry : Type where
  | placeholder : TopEntry
  | entry : PyVal → TopEntry
deriving DecidableEq, Repr

/-- The comprehension body `float(x) if x != " " else 0` (line 417): the
blank string gives 0, an integer converts, the empty-list placeholder makes
`float` raise `TypeError`. -/
def topToFloat (t : TopEntry) : Except String ℚ :=
  match t with
  | TopEntry.placeholder => Except.error "TypeError: float() argument must be a string or a number"
  | TopEntry.entry (PyVal.vint n) => Except.ok (n : ℚ)
  | TopEntry.entry (PyVal.vstr s) =>
    if s = " " then Except.ok 0 else Except.error "ValueError: could not convert string to float"
  | TopEntry.entry PyVal.vnone => Except.error "TypeError: float() argument must be a string or a number"

/-- The six cause/likelihood slots and the indeterminacy produced by the
ranking block (lines 385-419). -/
structure RankOut where
  cause1 : PyVal
  lik1 : PyVal
  cause2 : PyVal
  lik2 : PyVal
  cause3 : PyVal
  lik3 : PyVal
  indet : ℤ
deriving DecidableEq, Repr

/-- Top-3 cause ranking over the group-B slice (lines 385-419).  Faithful to
the source: `prob_temp_names.drop(...)`'s result is discarded, so runner-up
names are read from the *unpruned* name list at positions of the pruned
value list, and `top3` starts as three empty-list placeholders, so the
final comprehension raises `TypeError` whenever the ranked branch runs. -/
def causeRanker (probB : List ℚ) (names : List String) :
    Except String RankOut :=
  if amaxQ probB < 2/5 then
    Except.ok ⟨PyVal.vstr " ", PyVal.vstr " ", PyVal.vstr " ",
               PyVal.vstr " ", PyVal.vstr " ", PyVal.vstr " ", 100⟩
  else
    let m1 := argmaxQ probB
    let lik1 : PyVal := PyVal.vint (pyRound (amaxQ probB * 100))
    let cause1 : PyVal := PyVal.vstr (names.getD m1 "")
    let pt1 := probB.eraseIdx m1
    let top1 : List TopEntry :=
      [TopEntry.placeholder, TopEntry.placeholder, TopEntry.placeholder, TopEntry.entry lik1]
    let m2 := argmaxQ pt1
    let lik2a : PyVal := PyVal.vint (pyRound (amaxQ pt1 * 100))
    let cause2a : PyVal := PyVal.vstr (names.getD m2 "")
    let cl2 := if amaxQ pt1 < 1/2 * amaxQ probB then
        (PyVal.vstr " ", PyVal.vstr " ") else (cause2a, lik2a)
    let pt2 := pt1.eraseIdx m2
    let top2 := top1 ++ [TopEntry.entry cl2.2]
    let m3 := argmaxQ pt2
    let lik3a : PyVal := PyVal.vint (pyRound (amaxQ pt2 * 100))
    let cause3a : PyVal := PyVal.vstr (names.getD m3 "")
    let cl3 := if amaxQ pt2 < 1/2 * amaxQ probB then
        (PyVal.vstr " ", PyVal.vstr " ") else (cause3a, lik3a)
    let top3 := top2 ++ [TopEntry.entry cl3.2]
    match top3.mapM topToFloat with
    | Except.error e => Except.error e
    | Except.ok fs =>
      Except.ok ⟨cause1, lik1, cl2.1, cl2.2, cl3.1, cl3.2, pyRound (100 - fs.sum)⟩

/-- Comorbidity-category classification (lines 421-433).  Faithful to the
source: `prob_c_max` is captured *before* the normalization, and both the
0.5 threshold and the likelihood use that pre-normalization maximum, while
the label's argmax is taken on the (possibly) normalized slice. -/
def comorbidity (probC : List ℚ) (names : List String) : String × Option ℤ :=
  let m := amaxQ probC
  let probC2 := if 0 < probC.sum then probC.map (fun x => x / probC.sum) else probC
  if m < 1/2 then ("Multiple", none)
  else (names.getD (argmaxQ probC2) "", some (pyRound (m * 100)))

instance {ε α : Type} [DecidableEq ε] [DecidableEq α] : DecidableEq (Except ε α) :=
  fun x y =>
    match x, y with
    | Except.ok a, Except.ok b =>
      if h : a = b then isTrue (by rw [h])
      else isFalse (by intro hh; injection hh; contradiction)
    | Except.error a, Except.error b =>
      if h : a = b then isTrue (by rw [h])
      else isFalse (by intro hh; injection hh; contradiction)
    | Except.ok _, Except.error _ => isFalse (by intro hh; injection hh)
    | Except.error _, Except.ok _ => isFalse (by intro hh; injection hh)

/-- One assembled result row (`va5`, lines 104-108 and 437-439).  The
likelihood slots of the pregnancy and comorbidity outputs hold `none` for
the blank string `" "`; `malprev`/`hivprev` echo the lower-cased settings. -/
structure Row where
  rid : Option String
  malprev : String
  hivprev : String
  pregstat : String
  preglik : Option ℤ
  cause1 : PyVal
  lik1 : PyVal
  cause2 : PyVal
  lik2 : PyVal
  cause3 : PyVal
  lik3 : PyVal
  indet : ℤ
  comcat : String
  comnum : Option ℤ
  wholeprob : List ℚ
deriving DecidableEq, Repr

/-- Mutable state threaded through the record loop: the (view-aliased, hence
mutated) `Sys_Prior`, the positional `VA_result` list (`none` is the `[]`
placeholder an excluded record leaves behind), the `ID_list` of accepted
records, and the `errors` accumulator (initialized to `None`, line 267). -/
structure RunState where
  sysPrior : List ℚ
  results : List (Option Row)
  idList : List (Option String)
  errors : Option String
deriving DecidableEq, Repr

/-- The exclusion-logging statement `errors = errors + index_current + reason`
(lines 296-297, 301-302, 306-307): Python `None + ...` raises `TypeError`,
which is what the first excluded record always hits. -/
def logExclusion (errors : Option String) (rid : Option String) (reason : String) :
    Except String (Option String) :=
  match errors, rid with
  | some e, some i => Except.ok (some (e ++ i ++ reason))
  | _, _ => Except.error "TypeError: unsupported operand type(s) for +"

/-- Processing of one record (lines 279-444, the body of the `for i` loop):
canonicalization, exclusion checks (logging only when `write` is set), the
external consistency check `dc` (§6.1 collaborator, a parameter here), the
informativeness flags, the multiplicative update (writing through into
`Sys_Prior`), the three classifiers, and row assembly.  The CSV-writing
helpers (`save_va5`, out of the spec's core scope) are not modelled. -/
def processRecord (pb : List (List String)) (names : List String)
    (hiv malaria : String) (write : Bool)
    (dc : List (Option ℚ) → List (Option ℚ))
    (st : RunState) (rec : List (Option String)) : Except String RunState :=
  let rid := rec.getD 0 none
  let input := canonicalize rec
  match excludedReason input with
  | some reason =>
    if write then
      match logExclusion st.errors rid reason with
      | Except.error e => Except.error e
      | Except.ok errs =>
        Except.ok { st with results := st.results ++ [none], errors := errs }
    else
      Except.ok { st with results := st.results ++ [none] }
  | none =>
    let checked := dc input
    let flags := newInput checked (substVector pb)
    let repro := reproductiveAge (postSubst checked)
    match inferProbE pb flags st.sysPrior with
    | Except.error e => Except.error e
    | Except.ok sysProb =>
      let prob := sysProb.2
      let probA := prob.take 3
      let probB := (prob.drop 3).take 61
      let probC := (prob.drop 64).take 6
      let preg := pregnancy probA repro
      match causeRanker probB ((names.drop 3).take 61) with
      | Except.error e => Except.error e
      | Except.ok rank =>
        let com := comorbidity probC ((names.drop 64).take 6)
        let row : Row :=
          { rid := rid, malprev := malaria, hivprev := hiv,
            pregstat := preg.1, preglik := preg.2,
            cause1 := rank.cause1, lik1 := rank.lik1,
            cause2 := rank.cause2, lik2 := rank.lik2,
            cause3 := rank.cause3, lik3 := rank.lik3,
            indet := rank.indet,
            comcat := com.1, comnum := com.2, wholeprob := prob }
        Except.ok { st with sysPrior := sysProb.1,
                            results := st.results ++ [some row],
                            idList := st.idList ++ [rid] }

/-- The record loop (line 270), threading `RunState` and stopping at the
first uncaught Python exception. -/
def runLoop (pb : List (List String)) (names : List String)
    (hiv malaria : String) (write : Bool)
    (dc : List (Option ℚ) → List (Option ℚ)) :
    RunState → List (List (Option String)) → Except String RunState
  | st, [] => Except.ok st
  | st, rec :: rest =>
    match processRecord pb names hiv malaria write dc st rec with
    | Except.error e => Except.error e
    | Except.ok st' => runLoop pb names hiv malaria write dc st' rest

/-- Drop the elements whose position is listed in `idxs` (the `DataFrame.drop`
of `nan_indices` on a default integer index, lines 464 and 470). -/
def dropIdxs {α : Type} (l : List α) (idxs : List ℕ) : List α :=
  (l.enum.filter (fun p => ¬ idxs.contains p.1)).map (fun p => p.2)

/-- Final output of `run`: the kept `ID_list`, the `VA_result` rows (one entry
per input record, excluded records leaving a `none` placeholder row), and
the echoed settings. -/
structure RunOut where
  idList : List (Option String)
  va5 : List (Option Row)
  malaria : String
  hiv : String
deriving DecidableEq, Repr

/-- The `run` method (lines 93-477) on the `sci` path: shape validation of the
probability table (lines 150-155), the empty-input check (line 181), the
column-count and last-column-name checks (lines 185-189), `Sys_Prior`
construction with the setting validation (lines 207-245), the record loop,
and the final assembly (lines 456-470).  There, `DataFrame(VA_result)` pads
the `[]` placeholders of excluded records to all-missing 15-column rows
when at least one 15-element accepted row exists, but when *every* row is
a placeholder the DataFrame has zero columns and the 15-name column
assignment (lines 467-469) raises `ValueError`; afterwards the missing-ID
positions computed from `ID_list` are dropped from both `ID_list` and
`VA_result`.  Loading the
packaged default table, column relabeling and CSV output are external
I/O concerns and are not modelled. -/
def run (pb : List (List String)) (colNames : List String)
    (vaData : List (List (Option String))) (hiv malaria : String)
    (write : Bool) (dc : List (Option ℚ) → List (Option ℚ))
    (names : List String) : Except String RunOut :=
  if pb.length ≠ 354 ∨ pb.any (fun r => r.length ≠ 87) then
    Except.error "Error: Invalid SCI (must be Pandas DataFrame or Numpy ndarray with 354 rows and 87 columns)."
  else if vaData.length < 1 then
    Except.error "error: no data input"
  else
    let S := (vaData.headD []).length
    if S ≠ pb.length then
      Except.error "error: invalid data input format. Number of values incorrect"
    else if pyLower (colNames.getD (S - 1) "") ≠ "i459o" then
      Except.error "error: the last variable should be 'i459o'"
    else
      match buildSysPrior (pb.getD 0 []) hiv malaria with
      | Except.error e => Except.error e
      | Except.ok sysPrior =>
        match runLoop pb names hiv malaria write dc
            { sysPrior := sysPrior, results := [], idList := [], errors := none } vaData with
        | Except.error e => Except.error e
        | Except.ok st =>
          if st.results.all (fun r => r.isNone) then
            Except.error "ValueError: Length mismatch: Expected axis has 0 elements, new values have 15 elements"
          else
            let nanIdx := (List.range st.idList.length).filter
              (fun i => (st.idList.getD i none).isNone)
            Except.ok { idList := dropIdxs st.idList nanIdx,
                        va5 := dropIdxs st.results nanIdx,
                        malaria := pyLower malaria, hiv := pyLower hiv }

/-- A probability-table row whose cause columns are all grade `N` (0). -/
def pbRowN : List String := List.replicate 87 "N"

/-- A probability-table row whose columns are all grade `I` (1). -/
def pbRowI : List String := List.replicate 87 "I"

/-- Row 20 of the concrete table: substitution column 5 expects `Y`, cause
columns all `N`. -/
def pbRow20 : List String := (List.replicate 87 "N").set 5 "Y"

/-- A concrete 354 × 87 probability table: prior row all `I`, row 2 all `I`,
row 20 with expected value `Y`, all other rows all `N`. -/
def pbC : List (List String) :=
  (((List.replicate 354 pbRowN).set 0 pbRowI).set 2 pbRowI).set 20 pbRow20

/-- Input column names matching the standard layout's last column. -/
def colNamesC : List String := (List.replicate 354 "x").set 353 "i459o"

/-- A concrete cause-name list. -/
def namesC : List String := List.replicate 70 "nm"

/-- The prior `buildSysPrior` produces from `pbC` row 0 with both settings
`h`: 17 zeroed metadata columns, causes 1 except the three prevalence
overwrites at full-row indices 22, 24 and 44. -/
def spC : List ℚ :=
  List.replicate 17 0 ++
    ((((List.replicate 70 (1 : ℚ)).set 5 (1/20)).set 7 (1/20)).set 27 (1/20))

/-- A record that is accepted and informative exactly at symptom 20. -/
def rec1 : List (Option String) :=
  ((((List.replicate 354 (none : Option String)).set 0 (some "1")).set 3
      (some "y")).set 5 (some "y")).set 20 (some "y")

/-- A record that is accepted with zero informative symptoms. -/
def rec2 : List (Option String) :=
  ((((List.replicate 354 (none : Option String)).set 0 (some "2")).set 3
      (some "y")).set 5 (some "y")).set 21 (some "y")

/-- A record with every cell missing (in particular all age indicators). -/
def recNone : List (Option String) := List.replicate 354 (none : Option String)

/-- The cause-vector state after the concrete `rec1` record: the `prob` view
written back into `Sys_Prior` makes every later record start from this. -/
def st0C : RunState := { sysPrior := spC, results := [], idList := [], errors := none }

/-- Informativeness flags of `rec1` against `pbC`: exactly symptom 20. -/
def flagsC1 : List ℕ := newInput (canonicalize rec1) (substVector pbC)

/-- A concrete group-B name slice for the ranker. -/
def namesB : List String := List.replicate 61 "gb"

/-- A group-B slice whose maximum is below the 0.4 threshold. -/
def sliceLow : List ℚ := List.replicate 61 0

/-- A group-B slice whose maximum reaches the 0.4 threshold. -/
def sliceHigh : List ℚ := [1/2, 2/5] ++ List.replicate 59 0

/-- A concrete group-C name slice. -/
def c3names : List String := ["n0", "n1", "n2", "n3", "n4", "n5"]

/-- An arbitrary concrete prior vector of the full row length 87. -/
def sp9 : List ℚ := List.replicate 87 7

/-- A length-70 all-ones cause vector. -/
def vec70 : List ℚ := List.replicate 70 1

/-- One group slice normalized by its sum when that sum is positive — the
per-group effect of `normGroup` on exactly its own group. -/
def gnorm (x : List ℚ) : List ℚ :=
  if 0 < x.sum then x.map (fun v => v / x.sum) else x

/-- The list of intermediate states of the multiplicative update loop: one
entry per informative-symptom iteration, each produced by `updateStep`
(the state the source holds in `prob` right after the three group
renormalizations of that iteration). -/
def inferStates (rows : List (List ℚ)) (prob : List ℚ) : List (List ℚ) :=
  match rows with
  | [] => []
  | r :: rs => updateStep r prob :: inferStates rs (updateStep r prob)

/-- The comorbidity classifier as the specification claim words it (for the
refinement comparison only; the embedding of the source is `comorbidity`):
normalize first when the sum is positive, then take threshold, label and
likelihood all from the *normalized* slice. -/
def comorbiditySpec (probC : List ℚ) (names : List String) : String × Option ℤ :=
  let probC2 := if 0 < probC.sum then probC.map (fun x => x / probC.sum) else probC
  if amaxQ probC2 < 1/2 then ("Multiple", none)
  else (names.getD (argmaxQ probC2) "", some (pyRound (amaxQ probC2 * 100)))
theorem qmax_eq_max (a b : ℚ) : qmax a b = max a b := by
  unfold qmax
  rcases lt_trichotomy a b with h | h | h
  · rw [if_pos h, max_eq_right h.le]
  · rw [h, if_neg (lt_irrefl b), max_self]
  · rw [if_neg (not_lt.mpr h.le), max_eq_left h.le]

theorem le_qmax_left (a b : ℚ) : a ≤ qmax a b := by
  rw [qmax_eq_max]; exact le_max_left a b

theorem le_qmax_right (a b : ℚ) : b ≤ qmax a b := by
  rw [qmax_eq_max]; exact le_max_right a b

theorem sum_map_div (l : List ℚ) (s : ℚ) : (l.map (fun v => v / s)).sum = l.sum / s := by
  induction l with
  | nil => simp
  | cons a t ih => simp [ih, add_div]

theorem gnorm_sum (x : List ℚ) (h : ∀ v ∈ x, 0 ≤ v) :
    (gnorm x).sum = 0 ∨ (gnorm x).sum = 1 := by
  unfold gnorm
  by_cases hs : 0 < x.sum
  · right
    rw [if_pos hs, sum_map_div, div_self (ne_of_gt hs)]
  · left
    rw [if_neg hs]
    exact le_antisymm (not_lt.mp hs) (List.sum_nonneg h)

theorem gnorm_nonneg (x : List ℚ) (h : ∀ v ∈ x, 0 ≤ v) :
    ∀ v ∈ gnorm x, 0 ≤ v := by
  unfold gnorm
  by_cases hs : 0 < x.sum
  · rw [if_pos hs]
    intro v hv
    obtain ⟨w, hw, rfl⟩ := List.mem_map.mp hv
    exact div_nonneg (h w hw) hs.le
  · rw [if_neg hs]; exact h

theorem gnorm_length (x : List ℚ) : (gnorm x).length = x.length := by
  unfold gnorm
  by_cases hs : 0 < x.sum
  · rw [if_pos hs, List.length_map]
  · rw [if_neg hs]

theorem normGroup_first (A R : List ℚ) (hA : A.length = 3) :
    normGroup (A ++ R) 0 3 = gnorm A ++ R := by
  unfold normGroup gnorm gsum
  rw [List.drop_zero, List.take_left' hA, List.take_zero, List.drop_left' hA,
    List.nil_append]
  split <;> rfl

theorem normGroup_mid (A B C : List ℚ) (hA : A.length = 3) (hB : B.length = 61) :
    normGroup (A ++ (B ++ C)) 3 64 = A ++ (gnorm B ++ C) := by
  unfold normGroup gnorm gsum
  have hd3 : (A ++ (B ++ C)).drop 3 = B ++ C := List.drop_left' hA
  have hd64 : (A ++ (B ++ C)).drop 64 = C := by
    have : (64 : ℕ) = 3 + 61 := by norm_num
    rw [this, ← List.drop_drop, hd3, List.drop_left' hB]
  rw [hd3, List.take_left' hB, List.take_left' hA, hd64, List.append_assoc]
  split <;> rfl

theorem normGroup_last (A B C : List ℚ) (hA : A.length = 3) (hB : B.length = 61)
    (hC : C.length = 6) :
    normGroup (A ++ (B ++ C)) 64 70 = A ++ (B ++ gnorm C) := by
  unfold normGroup gnorm gsum
  have hd64 : (A ++ (B ++ C)).drop 64 = C := by
    have : (64 : ℕ) = 3 + 61 := by norm_num
    rw [this, ← List.drop_drop, List.drop_left' hA, List.drop_left' hB]
  have ht : C.take (70 - 64) = C := by
    have : (70 - 64 : ℕ) = 6 := by norm_num
    rw [this, ← hC, List.take_length]
  have ht64 : (A ++ (B ++ C)).take 64 = A ++ B := by
    have h64 : (64 : ℕ) = A.length + 61 := by rw [hA]
    rw [h64, List.take_append, List.take_left' hB]
  have hd70 : (A ++ (B ++ C)).drop 70 = [] := by
    have : (70 : ℕ) = 64 + 6 := by norm_num
    rw [this, ← List.drop_drop, hd64, ← hC, List.drop_length]
  rw [hd64, ht, ht64, hd70, List.append_nil, List.append_assoc]
  split <;> rfl

theorem normalizeGroups_decomp (A B C : List ℚ) (hA : A.length = 3)
    (hB : B.length = 61) (hC : C.length = 6) :
    normalizeGroups (A ++ (B ++ C)) = gnorm A ++ (gnorm B ++ gnorm C) := by
  unfold normalizeGroups
  rw [normGroup_first A (B ++ C) hA,
    normGroup_mid (gnorm A) B C (by rw [gnorm_length, hA]) hB,
    normGroup_last (gnorm A) (gnorm B) C (by rw [gnorm_length, hA])
      (by rw [gnorm_length, hB]) hC]

theorem zipWith_mul_nonneg (row prob : List ℚ) (hr : ∀ x ∈ row, 0 ≤ x)
    (hp : ∀ x ∈ prob, 0 ≤ x) :
    ∀ x ∈ List.zipWith (fun r p => p * r) row prob, 0 ≤ x := by
  induction row generalizing prob with
  | nil => simp
  | cons a t ih =>
    intro x hx
    cases prob with
    | nil => simp at hx
    | cons b u =>
      rw [List.zipWith_cons_cons] at hx
      rcases List.mem_cons.mp hx with h | h
      · subst h
        exact mul_nonneg (hp b (List.mem_cons_self b u)) (hr a (List.mem_cons_self a t))
      · exact ih u (fun y hy => hr y (List.mem_cons_of_mem a hy))
          (fun y hy => hp y (List.mem_cons_of_mem b hy)) x h

theorem three_chunks (m : List ℚ) :
    m = m.take 3 ++ ((m.drop 3).take 61 ++ m.drop 64) := by
  have h1 : (m.drop 3).take 61 ++ (m.drop 3).drop 61 = m.drop 3 := List.take_append_drop 61 (m.drop 3)
  have h2 : (m.drop 3).drop 61 = m.drop 64 := by rw [List.drop_drop]
  rw [← h2, h1, List.take_append_drop]

theorem updateStep_spec (row prob : List ℚ) (hrl : row.length = 70)
    (hpl : prob.length = 70) (hr : ∀ x ∈ row, 0 ≤ x) (hp : ∀ x ∈ prob, 0 ≤ x) :
    ((gsum (updateStep row prob) 0 3 = 0 ∨ gsum (updateStep row prob) 0 3 = 1) ∧
     (gsum (updateStep row prob) 3 64 = 0 ∨ gsum (updateStep row prob) 3 64 = 1) ∧
     (gsum (updateStep row prob) 64 70 = 0 ∨ gsum (updateStep row prob) 64 70 = 1)) ∧
    (updateStep row prob).length = 70 ∧ (∀ x ∈ updateStep row prob, 0 ≤ x) := by
  have hmlen : (List.zipWith (fun r p => p * r) row prob).length = 70 := by
    rw [List.length_zipWith, hrl, hpl]; omega
  set m := List.zipWith (fun r p => p * r) row prob with hm
  have hmn : ∀ x ∈ m, 0 ≤ x := zipWith_mul_nonneg row prob hr hp
  have hAlen : (m.take 3).length = 3 := by
    rw [List.length_take, hmlen]; omega
  have hBlen : ((m.drop 3).take 61).length = 61 := by
    rw [List.length_take, List.length_drop, hmlen]; omega
  have hClen : (m.drop 64).length = 6 := by
    rw [List.length_drop, hmlen]
  have hAn : ∀ x ∈ m.take 3, 0 ≤ x := fun x hx => hmn x (List.mem_of_mem_take hx)
  have hBn : ∀ x ∈ (m.drop 3).take 61, 0 ≤ x :=
    fun x hx => hmn x (List.mem_of_mem_drop (List.mem_of_mem_take hx))
  have hCn : ∀ x ∈ m.drop 64, 0 ≤ x := fun x hx => hmn x (List.mem_of_mem_drop hx)
  have hdec : updateStep row prob =
      gnorm (m.take 3) ++ (gnorm ((m.drop 3).take 61) ++ gnorm (m.drop 64)) := by
    unfold updateStep
    rw [← hm]
    calc normalizeGroups m
        = normalizeGroups (m.take 3 ++ ((m.drop 3).take 61 ++ m.drop 64)) := by
          rw [← three_chunks]
      _ = gnorm (m.take 3) ++ (gnorm ((m.drop 3).take 61) ++ gnorm (m.drop 64)) :=
          normalizeGroups_decomp _ _ _ hAlen hBlen hClen
  have hgA : (gnorm (m.take 3)).length = 3 := by rw [gnorm_length, hAlen]
  have hgB : (gnorm ((m.drop 3).take 61)).length = 61 := by rw [gnorm_length, hBlen]
  have hgC : (gnorm (m.drop 64)).length = 6 := by rw [gnorm_length, hClen]
  refine ⟨⟨?_, ?_, ?_⟩, ?_, ?_⟩
  · rw [hdec]
    unfold gsum
    rw [List.drop_zero, List.take_left' hgA]
    exact gnorm_sum _ hAn
  · rw [hdec]
    unfold gsum
    rw [List.drop_left' hgA, List.take_left' hgB]
    exact gnorm_sum _ hBn
  · rw [hdec]
    unfold gsum
    have hd64 : (gnorm (m.take 3) ++ (gnorm ((m.drop 3).take 61) ++ gnorm (m.drop 64))).drop 64 =
        gnorm (m.drop 64) := by
      have : (64 : ℕ) = 3 + 61 := by norm_num
      rw [this, ← List.drop_drop, List.drop_left' hgA, List.drop_left' hgB]
    rw [hd64]
    have ht : (gnorm (m.drop 64)).take (70 - 64) = gnorm (m.drop 64) := by
      have h6 : (70 - 64 : ℕ) = 6 := by norm_num
      rw [h6, ← hgC, List.take_length]
    rw [ht]
    exact gnorm_sum _ hCn
  · rw [hdec, List.length_append, List.length_append, hgA, hgB, hgC]
  · rw [hdec]
    intro x hx
    rcases List.mem_append.mp hx with h | h
    · exact gnorm_nonneg _ hAn x h
    · rcases List.mem_append.mp h with h' | h'
      · exact gnorm_nonneg _ hBn x h'
      · exact gnorm_nonneg _ hCn x h'

/-- Claim C6: during inference, immediately after the per-group normalization
step of each per-informative-symptom update (each state in `inferStates`),
the sum of each of the three groups' values — A `[0:3]`, B `[3:64]`,
C `[64:70]` — is either 0 or exactly 1; exact in ℚ, so in particular within
any floating tolerance.  Nonnegativity of the inputs is what the running
program guarantees (grade values and the prior are nonnegative). -/
theorem inference_group_sums_zero_or_one (rows : List (List ℚ)) (prob : List ℚ)
    (hrows : ∀ r ∈ rows, r.length = 70 ∧ ∀ x ∈ r, 0 ≤ x)
    (hpl : prob.length = 70) (hpn : ∀ x ∈ prob, 0 ≤ x) :
    ∀ q ∈ inferStates rows prob,
      (gsum q 0 3 = 0 ∨ gsum q 0 3 = 1) ∧
      (gsum q 3 64 = 0 ∨ gsum q 3 64 = 1) ∧
      (gsum q 64 70 = 0 ∨ gsum q 64 70 = 1) := by
  induction rows generalizing prob with
  | nil => intro q hq; simp [inferStates] at hq
  | cons r rs ih =>
    intro q hq
    obtain ⟨hrlen, hrn⟩ := hrows r (List.mem_cons_self r rs)
    have hspec := updateStep_spec r prob hrlen hpl hrn hpn
    rw [inferStates] at hq
    rcases List.mem_cons.mp hq with h | h
    · subst h
      exact hspec.1
    · exact ih (updateStep r prob) (fun r' hr' => hrows r' (List.mem_cons_of_mem r hr'))
        hspec.2.1 hspec.2.2 q h

theorem getD_map_div (l : List ℚ) (s : ℚ) (j : ℕ) (hj : j < l.length) :
    (l.map (fun x => x / s)).getD j 0 = l.getD j 0 / s := by
  rw [List.getD_eq_getElem?_getD, List.getD_eq_getElem?_getD, List.getElem?_map,
    List.getElem?_eq_getElem hj]
  simp

theorem foldl_argmax_map_div (l : List ℚ) (s : ℚ) (hs : 0 < s) :
    ∀ (idxs : List ℕ) (b : ℕ), (∀ i ∈ idxs, i < l.length) → b < l.length →
      idxs.foldl (fun b' i =>
        if (l.map (fun x => x / s)).getD b' 0 < (l.map (fun x => x / s)).getD i 0
        then i else b') b =
      idxs.foldl (fun b' i => if l.getD b' 0 < l.getD i 0 then i else b') b := by
  intro idxs
  induction idxs with
  | nil => intro b _ _; rfl
  | cons i t ih =>
    intro b hmem hb
    have hi : i < l.length := hmem i (List.mem_cons_self i t)
    have hcond : ((l.map (fun x => x / s)).getD b 0 < (l.map (fun x => x / s)).getD i 0) ↔
        (l.getD b 0 < l.getD i 0) := by
      rw [getD_map_div l s b hb, getD_map_div l s i hi]
      exact div_lt_div_iff_of_pos_right hs
    rw [List.foldl_cons, List.foldl_cons]
    by_cases h : l.getD b 0 < l.getD i 0
    · rw [if_pos h, if_pos (hcond.mpr h)]
      exact ih i (fun j hj => hmem j (List.mem_cons_of_mem i hj)) hi
    · rw [if_neg h, if_neg (fun hc => h (hcond.mp hc))]
      exact ih b (fun j hj => hmem j (List.mem_cons_of_mem i hj)) hb

theorem argmaxQ_map_div (l : List ℚ) (s : ℚ) (hs : 0 < s) :
    argmaxQ (l.map (fun x => x / s)) = argmaxQ l := by
  unfold argmaxQ
  rw [List.length_map]
  cases l with
  | nil => rfl
  | cons a t =>
    exact foldl_argmax_map_div (a :: t) s hs (List.range (a :: t).length) 0
      (fun i hi => List.mem_range.mp hi) (by simp)

theorem comorbidity_pre_normalization (slice : List ℚ) (names : List String)
    (h : 0 < slice.sum) :
    comorbidity slice names =
      if amaxQ slice < 1/2 then ("Multiple", (none : Option ℤ))
      else (names.getD (argmaxQ slice) "", some (pyRound (amaxQ slice * 100))) := by
  simp only [comorbidity]
  rw [if_pos h, argmaxQ_map_div slice slice.sum h]

theorem argmaxQ_three (a b c : ℚ) :
    argmaxQ [a, b, c] =
      if a < b then (if b < c then 2 else 1) else (if a < c then 2 else 0) := by
  unfold argmaxQ
  rw [show List.range [a, b, c].length = [0, 1, 2] from rfl]
  simp only [List.foldl_cons, List.foldl_nil]
  rw [ite_self]
  rw [show [a, b, c].getD 0 0 = a from rfl, show [a, b, c].getD 1 0 = b from rfl]
  by_cases hab : a < b
  · rw [if_pos hab, if_pos hab,
      show [a, b, c].getD 1 0 = b from rfl, show [a, b, c].getD 2 0 = c from rfl]
  · rw [if_neg hab, if_neg hab,
      show [a, b, c].getD 0 0 = a from rfl, show [a, b, c].getD 2 0 = c from rfl]

theorem amaxQ_three (a b c : ℚ) : amaxQ [a, b, c] = qmax (qmax a b) c := by
  unfold amaxQ
  simp only [List.headD_cons, List.foldl_cons, List.foldl_nil]
  rw [show qmax a a = a from ite_self a]

/-- Claim C4: in the pregnancy classifier, for a reproductive-age record
whose group-A argmax value is at least 0.1, the label is selected by the
argmax among the three pregnancy labels, and the likelihood is
`round(value at index 1 if the argmax is 0 or 1, else at index 2, divided
by the group sum, times 100)` — index 1's value is used even when the label
corresponds to index 0, exactly as the source's sequential last-write-wins
assignments produce. -/
theorem pregnancy_reproductive_argmax (probA : List ℚ) (h3 : probA.length = 3)
    (hnn : ∀ x ∈ probA, 0 ≤ x)
    (hm : 1/10 ≤ probA.getD (argmaxQ probA) 0) :
    pregnancy probA true =
      ((if argmaxQ probA = 0 then "Not pregnant or recently delivered"
        else if argmaxQ probA = 1 then "Pregnancy ended within 6 weeks of death"
        else "Pregnant at death"),
       some (pyRound (probA.getD (if argmaxQ probA = 2 then 2 else 1) 0 /
         probA.sum * 100))) := by
  match probA, h3 with
  | [a, b, c], _ =>
  have hM := argmaxQ_three a b c
  by_cases hab : a < b
  · by_cases hbc : b < c
    · have hm2 : argmaxQ [a, b, c] = 2 := by rw [hM, if_pos hab, if_pos hbc]
      rw [hm2] at hm
      simp only [pregnancy, hm2]
      rw [if_pos ⟨trivial, hm, trivial⟩]
      rfl
    · have hm2 : argmaxQ [a, b, c] = 1 := by rw [hM, if_pos hab, if_neg hbc]
      rw [hm2] at hm
      simp only [pregnancy, hm2]
      rw [if_neg (by simp), if_pos ⟨trivial, hm, trivial⟩]
      rfl
  · by_cases hac : a < c
    · have hm2 : argmaxQ [a, b, c] = 2 := by rw [hM, if_neg hab, if_pos hac]
      rw [hm2] at hm
      simp only [pregnancy, hm2]
      rw [if_pos ⟨trivial, hm, trivial⟩]
      rfl
    · have hm2 : argmaxQ [a, b, c] = 0 := by rw [hM, if_neg hab, if_neg hac]
      rw [hm2] at hm
      simp only [pregnancy, hm2]
      rw [if_neg (by simp),
        if_neg (by simp), if_pos ⟨trivial, hm, trivial⟩]
      rfl

theorem getD_set_self_q (l : List ℚ) (i : ℕ) (a : ℚ) (h : i < l.length) :
    (l.set i a).getD i 0 = a := by
  rw [List.getD_eq_getElem?_getD, List.getElem?_set_self h]
  rfl

theorem getD_set_ne_q (l : List ℚ) (i j : ℕ) (a : ℚ) (h : i ≠ j) :
    (l.set i a).getD j 0 = l.getD j 0 := by
  rw [List.getD_eq_getElem?_getD, List.getElem?_set_ne h, ← List.getD_eq_getElem?_getD]

/-- Claim C9 (amended): the HIV setting overwrites the single fixed cause
index 22 and the malaria setting the two fixed indices 24 and 44, leaving
every other index untouched; the three constants are strictly decreasing
from high to low to very-low for indices 22 and 24 (0.05, 0.005, 1e-5),
while index 44 receives 0.05, 1e-5, 1e-5 — only non-increasing, with the
low and very-low constants equal. -/
theorem prevalence_overwrites_per_index (sp : List ℚ) (hlen : sp.length = 87) :
    ((applyHiv "h" sp).getD 22 0 = 1/20 ∧ (applyHiv "l" sp).getD 22 0 = 1/200 ∧
     (applyHiv "v" sp).getD 22 0 = 1/100000) ∧
    (∀ lvl ∈ ["h", "l", "v"], ∀ j, j ≠ 22 →
      (applyHiv lvl sp).getD j 0 = sp.getD j 0) ∧
    ((applyMalaria "h" sp).getD 24 0 = 1/20 ∧ (applyMalaria "l" sp).getD 24 0 = 1/200 ∧
     (applyMalaria "v" sp).getD 24 0 = 1/100000) ∧
    ((applyMalaria "h" sp).getD 44 0 = 1/20 ∧ (applyMalaria "l" sp).getD 44 0 = 1/100000 ∧
     (applyMalaria "v" sp).getD 44 0 = 1/100000) ∧
    (∀ lvl ∈ ["h", "l", "v"], ∀ j, j ≠ 24 → j ≠ 44 →
      (applyMalaria lvl sp).getD j 0 = sp.getD j 0) ∧
    ((1 : ℚ)/200 < 1/20 ∧ (1 : ℚ)/100000 < 1/200) := by
  have h22 : 22 < sp.length := by omega
  have h24 : 24 < sp.length := by omega
  have h44 : 44 < (sp.set 24 (1/20)).length := by rw [List.length_set]; omega
  have h44' : 44 < (sp.set 24 (1/200)).length := by rw [List.length_set]; omega
  have h44'' : 44 < (sp.set 24 (1/100000)).length := by rw [List.length_set]; omega
  refine ⟨⟨?_, ?_, ?_⟩, ?_, ⟨?_, ?_, ?_⟩, ⟨?_, ?_, ?_⟩, ?_, by norm_num, by norm_num⟩
  · exact getD_set_self_q sp 22 _ h22
  · exact getD_set_self_q sp 22 _ h22
  · exact getD_set_self_q sp 22 _ h22
  · intro lvl hlvl j hj
    have hlvl' : lvl = "h" ∨ lvl = "l" ∨ lvl = "v" := by simpa using hlvl
    rcases hlvl' with rfl | rfl | rfl <;>
      exact getD_set_ne_q sp 22 j _ (fun hh => hj hh.symm)
  · show ((sp.set 24 (1/20)).set 44 (1/20)).getD 24 0 = 1/20
    rw [getD_set_ne_q _ 44 24 _ (by omega)]
    exact getD_set_self_q sp 24 _ h24
  · show ((sp.set 24 (1/200)).set 44 (1/100000)).getD 24 0 = 1/200
    rw [getD_set_ne_q _ 44 24 _ (by omega)]
    exact getD_set_self_q sp 24 _ h24
  · show ((sp.set 24 (1/100000)).set 44 (1/100000)).getD 24 0 = 1/100000
    rw [getD_set_ne_q _ 44 24 _ (by omega)]
    exact getD_set_self_q sp 24 _ h24
  · exact getD_set_self_q _ 44 _ h44
  · exact getD_set_self_q _ 44 _ h44'
  · exact getD_set_self_q _ 44 _ h44''
  · intro lvl hlvl j hj24 hj44
    have hlvl' : lvl = "h" ∨ lvl = "l" ∨ lvl = "v" := by simpa using hlvl
    rcases hlvl' with rfl | rfl | rfl
    · show ((sp.set 24 (1/20)).set 44 (1/20)).getD j 0 = sp.getD j 0
      rw [getD_set_ne_q _ 44 j _ (fun hh => hj44 hh.symm)]
      exact getD_set_ne_q sp 24 j _ (fun hh => hj24 hh.symm)
    · show ((sp.set 24 (1/200)).set 44 (1/100000)).getD j 0 = sp.getD j 0
      rw [getD_set_ne_q _ 44 j _ (fun hh => hj44 hh.symm)]
      exact getD_set_ne_q sp 24 j _ (fun hh => hj24 hh.symm)
    · show ((sp.set 24 (1/100000)).set 44 (1/100000)).getD j 0 = sp.getD j 0
      rw [getD_set_ne_q _ 44 j _ (fun hh => hj44 hh.symm)]
      exact getD_set_ne_q sp 24 j _ (fun hh => hj24 hh.symm)

/-- Claim C10: for every input table with zero records (and a well-shaped
probability table, which is validated first), `run` fails with the error
`no data input` before any record is processed and produces no results. -/
theorem run_empty_input_no_data (pb : List (List String)) (colNames names : List String)
    (hiv malaria : String) (write : Bool)
    (dc : List (Option ℚ) → List (Option ℚ))
    (h354 : pb.length = 354) (h87 : ∀ r ∈ pb, r.length = 87) :
    run pb colNames [] hiv malaria write dc names =
      Except.error "error: no data input" := by
  have hany : pb.any (fun r => decide (r.length ≠ 87)) = false := by
    rw [List.any_eq_false]
    intro r hr
    simpa using h87 r hr
  have hc : ¬(pb.length ≠ 354 ∨ pb.any (fun r => r.length ≠ 87) = true) := by
    rintro (h | h)
    · exact h h354
    · rw [hany] at h
      cases h
  unfold run
  rw [if_neg hc, if_pos (by decide : ([] : List (List (Option String))).length < 1)]

/-- Claim C1 (code bug): for the record `rec1`, whose only informative symptom
is #20 (the flag list restricted to indices ≥ 1 retains exactly one flag),
the inference step multiplies the prior slice by the cause columns of
`probbase` row 2 (all ones here) — not by informative symptom 20's own row
(all zeros here), which is what the claim describes and what would give a
different vector.  The boolean-mask selection at line 343 yields flag
values, so `temp_sub + 1` is always 2. -/
theorem inference_multiplies_row2_only :
    rowNumeric pbC 2 = Except.ok (List.replicate 70 1) ∧
    rowNumeric pbC 20 = Except.ok (List.replicate 70 0) ∧
    flagsC1.getD 20 0 = 1 ∧
    (flagsC1.drop 1).filter (fun t => t == 1) = [1] ∧
    (inferProbE pbC flagsC1 spC).toOption.map Prod.snd =
      some (updateStep (List.replicate 70 1) (spC.drop 17)) ∧
    updateStep (List.replicate 70 0) (spC.drop 17) ≠
      updateStep (List.replicate 70 1) (spC.drop 17) := by
  refine ⟨by decide, by decide, by decide, by decide, by decide, by decide⟩

/-- Claim C2 (code bug): on a group-B slice whose maximum is below 0.4 the
ranker blanks all six outputs and sets indeterminacy to 100, as the claim
says; but on any slice whose maximum reaches 0.4 the ranked branch raises
`TypeError` while computing the indeterminacy, because `top3` is
initialized to three empty-list placeholders (line 388) that
`float(...)` cannot convert — so the ranked outputs are never produced. -/
theorem cause_ranker_blank_branch_and_crash :
    causeRanker sliceLow namesB =
      Except.ok ⟨PyVal.vstr " ", PyVal.vstr " ", PyVal.vstr " ",
        PyVal.vstr " ", PyVal.vstr " ", PyVal.vstr " ", 100⟩ ∧
    causeRanker sliceHigh namesB =
      Except.error "TypeError: float() argument must be a string or a number" := by
  refine ⟨by decide, by decide⟩

/-- Claim C3 (counterexample): on the slice `[0.3, 0.1, 0.1, 0, 0, 0]` (sum
0.5) the source classifier returns `Multiple` with no likelihood, because
it thresholds the *pre-normalization* maximum 0.3 < 0.5; the claim's rule
— threshold and likelihood from the normalized slice, whose maximum is
0.6 ≥ 0.5 — would return the name at index 0 with likelihood 60. -/
theorem comorbidity_counterexample :
    comorbidity [3/10, 1/10, 1/10, 0, 0, 0] c3names = ("Multiple", none) ∧
    comorbiditySpec [3/10, 1/10, 1/10, 0, 0, 0] c3names = (c3names.getD 0 "", some 60) := by
  refine ⟨by decide, by decide⟩

/-- Claim C3 (amended): when the slice sum is positive the slice is
normalized by its sum, but the 0.5 threshold and the likelihood use the
maximum of the slice *before* normalization; the label is the name at the
argmax (of the normalized slice, which is the same argmax).  The claim's
concrete example `[0.6, 0.1, 0.1, 0.1, 0.05, 0.05]` (already normalized)
still yields the name at index 0 with likelihood 60. -/
theorem comorbidity_amended :
    (∀ (slice : List ℚ) (names : List String), 0 < slice.sum →
      comorbidity slice names =
        if amaxQ slice < 1/2 then ("Multiple", (none : Option ℤ))
        else (names.getD (argmaxQ slice) "", some (pyRound (amaxQ slice * 100)))) ∧
    comorbidity [3/5, 1/10, 1/10, 1/10, 1/20, 1/20] c3names =
      (c3names.getD 0 "", some 60) := by
  refine ⟨fun slice names h => comorbidity_pre_normalization slice names h, by decide⟩

theorem comorbidity_amended_witness :
    0 < ([3/10, 1/10, 1/10, 0, 0, 0] : List ℚ).sum ∧
    comorbidity [3/10, 1/10, 1/10, 0, 0, 0] c3names =
      (if amaxQ [3/10, 1/10, 1/10, 0, 0, 0] < 1/2 then ("Multiple", (none : Option ℤ))
       else (c3names.getD (argmaxQ [3/10, 1/10, 1/10, 0, 0, 0]) "",
         some (pyRound (amaxQ [3/10, 1/10, 1/10, 0, 0, 0] * 100)))) :=
  ⟨by decide, comorbidity_amended.1 [3/10, 1/10, 1/10, 0, 0, 0] c3names (by decide)⟩

theorem pregnancy_reproductive_argmax_witness :
    (([1/2, 1/4, 1/4] : List ℚ).length = 3 ∧
     (∀ x ∈ ([1/2, 1/4, 1/4] : List ℚ), 0 ≤ x) ∧
     1/10 ≤ ([1/2, 1/4, 1/4] : List ℚ).getD (argmaxQ [1/2, 1/4, 1/4]) 0) ∧
    pregnancy [1/2, 1/4, 1/4] true =
      ((if argmaxQ [1/2, 1/4, 1/4] = 0 then "Not pregnant or recently delivered"
        else if argmaxQ [1/2, 1/4, 1/4] = 1 then "Pregnancy ended within 6 weeks of death"
        else "Pregnant at death"),
       some (pyRound (([1/2, 1/4, 1/4] : List ℚ).getD
         (if argmaxQ [1/2, 1/4, 1/4] = 2 then 2 else 1) 0 /
         ([1/2, 1/4, 1/4] : List ℚ).sum * 100))) :=
  ⟨⟨by decide, by decide, by decide⟩,
   pregnancy_reproductive_argmax [1/2, 1/4, 1/4] (by decide) (by decide) (by decide)⟩

/-- Claim C5 (code bug): processing the accepted record `rec1` (which has one
informative symptom) leaves the prior changed: the source's `prob` is a
NumPy view of `Sys_Prior[17:]`, so the in-place multiplicative update
writes through, and the next record reads the mutated prior rather than
the one `buildSysPrior` produced. -/
theorem prior_mutated_between_records :
    buildSysPrior (pbC.getD 0 []) "h" "h" = Except.ok spC ∧
    (processRecord pbC namesC "h" "h" false (fun v => v) st0C rec1).toOption.isSome = true ∧
    (processRecord pbC namesC "h" "h" false (fun v => v) st0C rec1).toOption.map
      (fun st => st.sysPrior) ≠ some spC := by
  refine ⟨by decide, by decide, by decide⟩

theorem inference_group_sums_zero_or_one_witness :
    ((∀ r ∈ [vec70], r.length = 70 ∧ ∀ x ∈ r, 0 ≤ x) ∧
     vec70.length = 70 ∧ (∀ x ∈ vec70, 0 ≤ x) ∧
     updateStep vec70 vec70 ∈ inferStates [vec70] vec70) ∧
    ((gsum (updateStep vec70 vec70) 0 3 = 0 ∨ gsum (updateStep vec70 vec70) 0 3 = 1) ∧
     (gsum (updateStep vec70 vec70) 3 64 = 0 ∨ gsum (updateStep vec70 vec70) 3 64 = 1) ∧
     (gsum (updateStep vec70 vec70) 64 70 = 0 ∨ gsum (updateStep vec70 vec70) 64 70 = 1)) :=
  ⟨⟨by decide, by decide, by decide, by simp [inferStates]⟩,
   inference_group_sums_zero_or_one [vec70] vec70 (by decide) (by decide) (by decide)
     (updateStep vec70 vec70) (by simp [inferStates])⟩

/-- Claim C7 (code bug): in the two-record run `[rec1, rec2]`, the second
record is accepted and has zero informative symptoms, yet its combined
probability vector (`wholeprob`) is not the prior slice `spC.drop 17` —
it is the first record's renormalized posterior, inherited through the
mutated `Sys_Prior` view. -/
theorem zero_informative_inherits_mutated_prior :
    ((newInput (canonicalize rec2) (substVector pbC)).drop 1).filter (fun t => t == 1) = [] ∧
    ((run pbC colNamesC [rec1, rec2] "h" "h" false (fun v => v) namesC).toOption.bind
      (fun o => o.va5.getD 1 none)).isSome = true ∧
    ((run pbC colNamesC [rec1, rec2] "h" "h" false (fun v => v) namesC).toOption.bind
      (fun o => o.va5.getD 1 none)).map Row.wholeprob ≠ some (spC.drop 17) := by
  refine ⟨by decide, by decide, by decide⟩

/-- Claim C8 (code bug): with `write = True`, the first excluded record (all
age indicators missing) raises `TypeError` while appending the exclusion
reason, because the log accumulator `errors` is initialized to `None`
(line 267).  With `write = False` nothing is logged, and the record is
still not skipped cleanly: when every record was excluded, the 15-name
column assignment on the then 0-column `VA_result` DataFrame raises
`ValueError` (lines 466-469); and when another record is accepted, the
excluded record appears in the final `VA_result` as an all-missing
placeholder row (only missing-ID positions of *accepted* records are
dropped), contradicting the claim that it is absent from the final
collection. -/
theorem excluded_record_typeerror_and_placeholder :
    run pbC colNamesC [recNone] "h" "h" true (fun v => v) namesC =
      Except.error "TypeError: unsupported operand type(s) for +" ∧
    run pbC colNamesC [recNone] "h" "h" false (fun v => v) namesC =
      Except.error "ValueError: Length mismatch: Expected axis has 0 elements, new values have 15 elements" ∧
    (run pbC colNamesC [recNone, rec1] "h" "h" false (fun v => v) namesC).toOption.map
      (fun o => (o.idList, o.va5.length, (o.va5.getD 0 none).isNone)) =
      some ([some "1"], 2, true) := by
  refine ⟨by decide, by decide, by decide⟩

/-- Claim C9 (counterexample): the malaria constants for index 44 are 0.05,
1e-5, 1e-5 for high, low, very-low — the low and very-low values are
equal, so the constant is not strictly decreasing from low to very-low. -/
theorem malaria_index44_not_strictly_decreasing :
    (applyMalaria "l" sp9).getD 44 0 = (applyMalaria "v" sp9).getD 44 0 ∧
    ¬ ((applyMalaria "v" sp9).getD 44 0 < (applyMalaria "l" sp9).getD 44 0) := by
  refine ⟨by decide, by decide⟩

theorem prevalence_overwrites_per_index_witness :
    sp9.length = 87 ∧
    (((applyHiv "h" sp9).getD 22 0 = 1/20 ∧ (applyHiv "l" sp9).getD 22 0 = 1/200 ∧
      (applyHiv "v" sp9).getD 22 0 = 1/100000) ∧
     (∀ lvl ∈ ["h", "l", "v"], ∀ j, j ≠ 22 →
       (applyHiv lvl sp9).getD j 0 = sp9.getD j 0) ∧
     ((applyMalaria "h" sp9).getD 24 0 = 1/20 ∧ (applyMalaria "l" sp9).getD 24 0 = 1/200 ∧
      (applyMalaria "v" sp9).getD 24 0 = 1/100000) ∧
     ((applyMalaria "h" sp9).getD 44 0 = 1/20 ∧ (applyMalaria "l" sp9).getD 44 0 = 1/100000 ∧
      (applyMalaria "v" sp9).getD 44 0 = 1/100000) ∧
     (∀ lvl ∈ ["h", "l", "v"], ∀ j, j ≠ 24 → j ≠ 44 →
       (applyMalaria lvl sp9).getD j 0 = sp9.getD j 0) ∧
     ((1 : ℚ)/200 < 1/20 ∧ (1 : ℚ)/100000 < 1/200)) :=
  ⟨by decide, prevalence_overwrites_per_index sp9 (by decide)⟩

theorem run_empty_input_no_data_witness :
    pbC.length = 354 ∧ (∀ r ∈ pbC, r.length = 87) ∧
    run pbC colNamesC [] "h" "h" true (fun v => v) namesC =
      Except.error "error: no data input" :=
  ⟨by decide, by decide,
   run_empty_input_no_data pbC colNamesC namesC "h" "h" true (fun v => v)
     (by decide) (by decide)⟩
